import Mathlib

/-!
Verification of the transcription backend's service layer and HTTP endpoints.

Shallow embedding notes:
* File contents and byte payloads are modelled as `String`; `String.length`
  stands for Python's `len` on the payload.
* The filesystem is a flat map from absolute path strings to contents; no
  path normalisation happens (the code never normalises either).
* `tempfile.NamedTemporaryFile(delete=False, suffix=".mkv")` is modelled as a
  fresh name under `/tmp/` supplied by the environment.
* The media library (moviepy) and the remote transcription API (elevenlabs)
  are oracles supplied by the environment.  A library/API failure is a
  generic (non-ValueError) Python exception carrying a message, matching the
  spec's DependencyError class; `probe` returning `.ok none` models a
  container with no audio stream.
* Python exception classes that matter to the endpoints are `ValueError`
  versus everything else; FastAPI's `HTTPException` stringifies as
  `"<status>: <detail>"` (Starlette's `__str__`).
-/

/-- A flat filesystem: association list from path to file contents. -/
structure FileSystem where
  files : List (String × String)
deriving Repr, DecidableEq

def FileSystem.read (fs : FileSystem) (p : String) : Option String :=
  (fs.files.find? (fun kv => kv.1 == p)).map (fun kv => kv.2)

def FileSystem.write (fs : FileSystem) (p : String) (c : String) : FileSystem :=
  ⟨(p, c) :: fs.files.filter (fun kv => kv.1 != p)⟩

def FileSystem.remove (fs : FileSystem) (p : String) : FileSystem :=
  ⟨fs.files.filter (fun kv => kv.1 != p)⟩

def FileSystem.pathExists (fs : FileSystem) (p : String) : Bool :=
  (fs.read p).isSome

theorem FileSystem.read_write_self (fs : FileSystem) (p c : String) :
    (fs.write p c).read p = some c := by
  simp [FileSystem.read, FileSystem.write]

theorem find?_filter_ne {l : List (String × String)} {p q : String} (h : p ≠ q) :
    (l.filter (fun kv => kv.1 != p)).find? (fun kv => kv.1 == q) =
      l.find? (fun kv => kv.1 == q) := by
  induction l with
  | nil => rfl
  | cons a l ih =>
    by_cases hap : a.1 = p
    · have h1 : ¬ ((fun kv => kv.1 != p) a = true) := by simp [hap]
      have h2 : ¬ ((fun kv => kv.1 == q) a = true) := by
        simp [hap]
        exact h
      rw [List.filter_cons_of_neg (p := fun kv : String × String => kv.1 != p) h1,
        List.find?_cons_of_neg (p := fun kv : String × String => kv.1 == q) _ h2, ih]
    · have h1 : (fun kv => kv.1 != p) a = true := by simp [hap]
      rw [List.filter_cons_of_pos (p := fun kv : String × String => kv.1 != p) h1]
      by_cases haq : a.1 = q
      · have h2 : (fun kv => kv.1 == q) a = true := by simp [haq]
        rw [List.find?_cons_of_pos (p := fun kv : String × String => kv.1 == q) _ h2,
          List.find?_cons_of_pos (p := fun kv : String × String => kv.1 == q) _ h2]
      · have h2 : ¬ ((fun kv => kv.1 == q) a = true) := by simp [haq]
        rw [List.find?_cons_of_neg (p := fun kv : String × String => kv.1 == q) _ h2,
          List.find?_cons_of_neg (p := fun kv : String × String => kv.1 == q) _ h2, ih]

theorem FileSystem.read_write_ne (fs : FileSystem) {p q : String} (c : String)
    (h : p ≠ q) : (fs.write p c).read q = fs.read q := by
  have hpq : (p == q) = false := by
    simp [h]
  simp [FileSystem.read, FileSystem.write, List.find?, hpq, find?_filter_ne h]

theorem find?_filter_self {l : List (String × String)} {p : String} :
    (l.filter (fun kv => kv.1 != p)).find? (fun kv => kv.1 == p) = none := by
  induction l with
  | nil => rfl
  | cons a l ih =>
    by_cases hap : a.1 = p
    · have h1 : ¬ ((fun kv => kv.1 != p) a = true) := by simp [hap]
      rw [List.filter_cons_of_neg (p := fun kv : String × String => kv.1 != p) h1, ih]
    · have h1 : (fun kv => kv.1 != p) a = true := by simp [hap]
      have h2 : ¬ ((fun kv => kv.1 == p) a = true) := by simp [hap]
      rw [List.filter_cons_of_pos (p := fun kv : String × String => kv.1 != p) h1,
        List.find?_cons_of_neg (p := fun kv : String × String => kv.1 == p) _ h2, ih]

theorem FileSystem.read_remove_self (fs : FileSystem) (p : String) :
    (fs.remove p).read p = none := by
  simp [FileSystem.read, FileSystem.remove, find?_filter_self]

theorem FileSystem.read_remove_ne (fs : FileSystem) {p q : String}
    (h : p ≠ q) : (fs.remove p).read q = fs.read q := by
  simp [FileSystem.read, FileSystem.remove, find?_filter_ne h]

/-- Wall-clock time at second precision, as `datetime.now()` supplies it. -/
structure Timestamp where
  year : Nat
  month : Nat
  day : Nat
  hour : Nat
  minute : Nat
  second : Nat
deriving Repr, DecidableEq

/-- Ranges guaranteed by Python's `datetime` for any value `datetime.now()`
can return. -/
def Timestamp.Valid (t : Timestamp) : Prop :=
  t.year ≤ 9999 ∧ t.month ≤ 12 ∧ t.day ≤ 31 ∧
    t.hour ≤ 23 ∧ t.minute ≤ 59 ∧ t.second ≤ 59

instance (t : Timestamp) : Decidable t.Valid := by
  unfold Timestamp.Valid
  infer_instance

/-- The decimal digit character for `n % 10`, as produced by `strftime`. -/
def digitChar (n : Nat) : Char :=
  match n % 10 with
  | 0 => '0' | 1 => '1' | 2 => '2' | 3 => '3' | 4 => '4'
  | 5 => '5' | 6 => '6' | 7 => '7' | 8 => '8' | _ => '9'

/-- Two-digit zero-padded decimal rendering (`%m`, `%d`, `%H`, `%M`, `%S`). -/
def pad2L (n : Nat) : List Char :=
  [digitChar (n / 10), digitChar n]

/-- Four-digit zero-padded decimal rendering (`%Y`, for years `datetime`
allows, i.e. at most 9999). -/
def pad4L (n : Nat) : List Char :=
  [digitChar (n / 1000), digitChar (n / 100), digitChar (n / 10), digitChar n]

/-- `datetime.now().strftime('%Y%m%d_%H%M%S')`. -/
def timestampStr (t : Timestamp) : String :=
  String.mk (pad4L t.year ++ pad2L t.month ++ pad2L t.day ++ ['_'] ++
    pad2L t.hour ++ pad2L t.minute ++ pad2L t.second)

/-- `settings.TRANSCRIPTIONS_DIR` from `app/core/config.py`. -/
def TRANSCRIPTIONS_DIR : String := "transcriptions"

/-- `settings.MAX_FILE_SIZE` from `app/core/config.py` (2 GiB). -/
def MAX_FILE_SIZE : Nat := 2 * 1024 * 1024 * 1024

/-- `settings.ALLOWED_VIDEO_TYPES` from `app/core/config.py`. -/
def ALLOWED_VIDEO_TYPES : List String :=
  ["video/mp4", "video/avi", "video/mov", "video/mkv", "video/webm",
   "video/flv"]

/-- The per-invocation environment: the fresh temp-file stem chosen by
`tempfile`, the clock reading used by `_save_transcription`, and the two
external collaborators.  `probe` models `VideoFileClip` on the staged video
content: `.error msg` is a library failure (a generic Python exception),
`.ok none` means the container has no audio stream, `.ok (some a)` yields
the extracted audio bytes `a` that `write_audiofile` emits.  `apiConvert`
models `elevenlabs.speech_to_text.convert` on the audio bytes: `.error msg`
is a remote-API failure (generic exception), `.ok text` the transcription
text. -/
structure Env where
  tempName : String
  now : Timestamp
  probe : String → Except String (Option String)
  apiConvert : String → Except String String

/-- The Python exception classes the endpoint layer distinguishes. -/
inductive PyError where
  | valueError (msg : String)
  | otherError (msg : String)
deriving Repr, DecidableEq

/-- `tempfile.NamedTemporaryFile(delete=False, suffix=".mkv").name`:
a fresh name in the system temp directory with the requested suffix. -/
def tempVideoPath (env : Env) : String :=
  "/tmp/" ++ env.tempName ++ ".mkv"

/-- `TranscriptionService._save_temp_video`: stage the uploaded bytes into
the temp file and return its path. -/
def save_temp_video (env : Env) (fs : FileSystem) (video_content : String) :
    String × FileSystem :=
  (tempVideoPath env, fs.write (tempVideoPath env) video_content)

/-- `TranscriptionService._extract_audio`: open the staged video, raise
`ValueError` when there is no audio stream, otherwise write the audio to
`video_path + ".mp3"` and return that path. -/
def extract_audio (env : Env) (fs : FileSystem) (video_path : String) :
    Except PyError (String × FileSystem) :=
  match fs.read video_path with
  | none => .error (.otherError "FileNotFoundError")
  | some video =>
    match env.probe video with
    | .error msg => .error (.otherError msg)
    | .ok none => .error (.valueError "No audio stream found in video")
    | .ok (some audio) =>
      let audio_path := video_path ++ ".mp3"
      .ok (audio_path, fs.write audio_path audio)

/-- `TranscriptionService._transcribe_audio`: read the audio file back and
submit it to the remote API. -/
def transcribe_audio (env : Env) (fs : FileSystem) (audio_path : String) :
    Except PyError String :=
  match fs.read audio_path with
  | none => .error (.otherError "FileNotFoundError")
  | some audio =>
    match env.apiConvert audio with
    | .error msg => .error (.otherError msg)
    | .ok text => .ok text

/-- Filename generated by `TranscriptionService._save_transcription`. -/
def transcriptionFilename (t : Timestamp) : String :=
  "transcription_" ++ timestampStr t ++ ".txt"

/-- `TranscriptionService._save_transcription`: write the text (UTF-8) under
the transcripts directory and return the generated filename. -/
def save_transcription (env : Env) (fs : FileSystem)
    (transcription_text : String) : String × FileSystem :=
  let fname := transcriptionFilename env.now
  (fname, fs.write (TRANSCRIPTIONS_DIR ++ "/" ++ fname) transcription_text)

/-- `TranscriptionService.process_video`.  The `try`/`finally` is encoded
per branch: the `finally` block removes `temp_video_path` and then
`temp_audio_path` whenever each variable was set, and the bare `raise` in
the `except` clause re-raises the original exception unchanged. -/
def process_video (env : Env) (fs : FileSystem) (video_content : String)
    (filename : String) : Except PyError (String × String) × FileSystem :=
  let (tvp, fs1) := save_temp_video env fs video_content
  match extract_audio env fs1 tvp with
  | .error e => (.error e, fs1.remove tvp)
  | .ok (tap, fs2) =>
    match transcribe_audio env fs2 tap with
    | .error e => (.error e, (fs2.remove tvp).remove tap)
    | .ok transcription_text =>
      let (fname, fs3) := save_transcription env fs2 transcription_text
      (.ok (transcription_text, fname), (fs3.remove tvp).remove tap)

/-- `TranscriptionService.get_transcription_file_path`
(`os.path.join(settings.TRANSCRIPTIONS_DIR, filename)`). -/
def get_transcription_file_path (filename : String) : String :=
  TRANSCRIPTIONS_DIR ++ "/" ++ filename

/-- `TranscriptionService.transcription_file_exists`. -/
def transcription_file_exists (fs : FileSystem) (filename : String) : Bool :=
  fs.pathExists (get_transcription_file_path filename)

/-- Observable side-channel events of one endpoint invocation, in order. -/
inductive Effect where
  | readUpload
  | pipelineInvoked
  | fsExistsCheck (path : String)
  | fsServeFile (path : String)
deriving Repr, DecidableEq

/-- Outcome of `POST /api/v1/transcribe`: either the 200 JSON body or the
`HTTPException` FastAPI turns into an error response. -/
inductive TranscribeResult where
  | success (message : String) (transcription_file : String)
      (text_length : Nat)
  | httpError (status : Nat) (detail : String)
deriving Repr, DecidableEq

/-- Outcome of `GET /api/v1/download-transcription/{filename}`: either the
`FileResponse` (path served, bytes, download name) or an error status. -/
inductive DownloadResult where
  | fileResponse (path : String) (contents : String) (downloadName : String)
  | httpError (status : Nat) (detail : String)
deriving Repr, DecidableEq

/-- `file.content_type and file.content_type.startswith("video/")` — the
validation test in `transcribe_video`.  `startswith` is a character-prefix
test. -/
def contentTypeOk : Option String → Bool
  | some ct => List.isPrefixOf "video/".data ct.data
  | none => false

/-- Python's rendering of `file.content_type` in the f-string (an absent
content type prints as `None`). -/
def pyShowContentType : Option String → String
  | some ct => ct
  | none => "None"

/-- Starlette's `HTTPException.__str__`: `"<status_code>: <detail>"`. -/
def httpExceptionStr (status : Nat) (detail : String) : String :=
  toString status ++ ": " ++ detail

/-- Detail of the content-type rejection raised at endpoints.py line 36. -/
def badTypeDetail (content_type : Option String) : String :=
  "File must be a video. Received: " ++ pyShowContentType content_type

/-- Detail of the oversize rejection raised at endpoints.py line 45. -/
def tooLargeDetail : String :=
  "File too large. Maximum size: " ++ toString MAX_FILE_SIZE ++ " bytes"

/-- `transcribe_video` from `app/api/endpoints.py`.  Control flow of the
`try` statement: an `HTTPException` raised inside the `try` body is *not* a
`ValueError`, so it is caught by the final `except Exception` clause and
re-wrapped as a 500 whose detail embeds `str(e)`; exceptions raised inside
an `except` handler are not caught by sibling handlers of the same `try`.
The effect trace records the upload-stream read (`await file.read()`) and
the call into `transcription_service.process_video`. -/
def transcribe_video (env : Env) (fs : FileSystem)
    (content_type : Option String) (content : String) (filename : String) :
    TranscribeResult × FileSystem × List Effect :=
  if contentTypeOk content_type then
    if content.length > MAX_FILE_SIZE then
      (.httpError 500
        ("Error processing video: " ++ httpExceptionStr 400 tooLargeDetail),
       fs, [.readUpload])
    else
      match process_video env fs content filename with
      | (.ok (text, fname), fs2) =>
        (.success "Transcription completed successfully" fname text.length,
         fs2, [.readUpload, .pipelineInvoked])
      | (.error (.valueError msg), fs2) =>
        (.httpError 400 msg, fs2, [.readUpload, .pipelineInvoked])
      | (.error (.otherError msg), fs2) =>
        (.httpError 500 ("Error processing video: " ++ msg),
         fs2, [.readUpload, .pipelineInvoked])
  else
    (.httpError 500
      ("Error processing video: " ++
        httpExceptionStr 400 (badTypeDetail content_type)),
     fs, [])

/-- Python's `".." in filename` substring test. -/
def hasDotDotSub : List Char → Bool
  | '.' :: '.' :: _ => true
  | _ :: rest => hasDotDotSub rest
  | [] => false

/-- The filename test at endpoints.py line 90:
`not filename or ".." in filename or "/" in filename`. -/
def invalidDownloadName (filename : String) : Bool :=
  filename == "" || hasDotDotSub filename.data || filename.data.contains '/'

/-- `download_transcription` from `app/api/endpoints.py`.  The effect trace
records each touch of the filesystem (the existence check and the
`FileResponse` file read). -/
def download_transcription (fs : FileSystem) (filename : String) :
    DownloadResult × FileSystem × List Effect :=
  if invalidDownloadName filename then
    (.httpError 400 "Invalid filename", fs, [])
  else if transcription_file_exists fs filename then
    let path := get_transcription_file_path filename
    (.fileResponse path ((fs.read path).getD "") filename, fs,
     [.fsExistsCheck path, .fsServeFile path])
  else
    (.httpError 404 "Transcription file not found", fs,
     [.fsExistsCheck (get_transcription_file_path filename)])

/-- Every character `digitChar` produces is a decimal digit. -/
theorem isDigit_digitChar (n : Nat) : (digitChar n).isDigit = true := by
  unfold digitChar
  have h : n % 10 < 10 := Nat.mod_lt _ (by omega)
  interval_cases h2 : n % 10 <;> rfl

/-- All characters of the list are decimal digits. -/
def allDigits : List Char → Bool
  | [] => true
  | c :: cs => c.isDigit && allDigits cs

/-- The shape `transcription_` + 8 digits + `_` + 6 digits + `.txt`, on the
character list of a filename. -/
def matchesStampedName : List Char → Bool
  | 't' :: 'r' :: 'a' :: 'n' :: 's' :: 'c' :: 'r' :: 'i' :: 'p' :: 't' ::
    'i' :: 'o' :: 'n' :: '_' ::
    a :: b :: c :: d :: e :: f :: g :: h :: '_' ::
    i :: j :: k :: l :: m :: n :: '.' :: 't' :: 'x' :: 't' :: [] =>
      allDigits [a, b, c, d, e, f, g, h] && allDigits [i, j, k, l, m, n]
  | _ => false

/-- The filename pattern `transcription_<YYYYMMDD>_<HHMMSS>.txt`. -/
def matchesTranscriptionPattern (s : String) : Bool :=
  matchesStampedName s.data

theorem transcriptionFilename_data (t : Timestamp) :
    (transcriptionFilename t).data =
      't' :: 'r' :: 'a' :: 'n' :: 's' :: 'c' :: 'r' :: 'i' :: 'p' :: 't' ::
      'i' :: 'o' :: 'n' :: '_' ::
      digitChar (t.year / 1000) :: digitChar (t.year / 100) ::
      digitChar (t.year / 10) :: digitChar t.year ::
      digitChar (t.month / 10) :: digitChar t.month ::
      digitChar (t.day / 10) :: digitChar t.day :: '_' ::
      digitChar (t.hour / 10) :: digitChar t.hour ::
      digitChar (t.minute / 10) :: digitChar t.minute ::
      digitChar (t.second / 10) :: digitChar t.second ::
      '.' :: 't' :: 'x' :: 't' :: [] := rfl

/-- The generated transcript filename always matches the documented
pattern. -/
theorem matches_transcriptionFilename (t : Timestamp) :
    matchesTranscriptionPattern (transcriptionFilename t) = true := by
  unfold matchesTranscriptionPattern
  rw [transcriptionFilename_data]
  show (allDigits _ && allDigits _) = true
  simp [allDigits, isDigit_digitChar]

/-- Strings whose first characters differ are different. -/
theorem ne_of_head_ne {x y : String} {c d : Char}
    (hx : x.data.head? = some c) (hy : y.data.head? = some d)
    (hcd : c ≠ d) : x ≠ y := by
  intro h
  rw [h] at hx
  rw [hy] at hx
  exact hcd (Option.some.inj hx).symm

/-- Appending a nonempty suffix changes a string. -/
theorem ne_append_mp3 (s : String) : s ≠ s ++ ".mp3" := by
  intro h
  have hl := congrArg (fun x : String => x.data.length) h
  simp only [String.data_append, List.length_append] at hl
  simp [String.data] at hl

/-- The staged temp video path never names a file under the transcripts
directory. -/
theorem tempVideoPath_ne_transcript (env : Env) (rest : String) :
    tempVideoPath env ≠ TRANSCRIPTIONS_DIR ++ "/" ++ rest :=
  ne_of_head_ne (x := tempVideoPath env) (c := '/') (d := 't') rfl rfl
    (by decide)

/-- The extracted audio path never names a file under the transcripts
directory. -/
theorem tempAudioPath_ne_transcript (env : Env) (rest : String) :
    tempVideoPath env ++ ".mp3" ≠ TRANSCRIPTIONS_DIR ++ "/" ++ rest :=
  ne_of_head_ne (x := tempVideoPath env ++ ".mp3") (c := '/') (d := 't')
    rfl rfl (by decide)

theorem process_video_eq_probe_error (env : Env) (fs : FileSystem)
    (content filename msg : String) (h : env.probe content = .error msg) :
    process_video env fs content filename =
      (.error (.otherError msg),
       (fs.write (tempVideoPath env) content).remove (tempVideoPath env)) := by
  simp only [process_video, save_temp_video, extract_audio,
    FileSystem.read_write_self, h]

theorem process_video_eq_no_audio (env : Env) (fs : FileSystem)
    (content filename : String) (h : env.probe content = .ok none) :
    process_video env fs content filename =
      (.error (.valueError "No audio stream found in video"),
       (fs.write (tempVideoPath env) content).remove (tempVideoPath env)) := by
  simp only [process_video, save_temp_video, extract_audio,
    FileSystem.read_write_self, h]

theorem process_video_eq_api_error (env : Env) (fs : FileSystem)
    (content filename audio msg : String)
    (h1 : env.probe content = .ok (some audio))
    (h2 : env.apiConvert audio = .error msg) :
    process_video env fs content filename =
      (.error (.otherError msg),
       ((((fs.write (tempVideoPath env) content).write
            (tempVideoPath env ++ ".mp3") audio).remove
          (tempVideoPath env)).remove (tempVideoPath env ++ ".mp3"))) := by
  simp only [process_video, save_temp_video, extract_audio, transcribe_audio,
    FileSystem.read_write_self, h1, h2]

theorem process_video_eq_success (env : Env) (fs : FileSystem)
    (content filename audio text : String)
    (h1 : env.probe content = .ok (some audio))
    (h2 : env.apiConvert audio = .ok text) :
    process_video env fs content filename =
      (.ok (text, transcriptionFilename env.now),
       (((((fs.write (tempVideoPath env) content).write
             (tempVideoPath env ++ ".mp3") audio).write
            (TRANSCRIPTIONS_DIR ++ "/" ++ transcriptionFilename env.now)
            text).remove
          (tempVideoPath env)).remove (tempVideoPath env ++ ".mp3"))) := by
  simp only [process_video, save_temp_video, extract_audio, transcribe_audio,
    save_transcription, FileSystem.read_write_self, h1, h2]

/-- C1: for every valid video input with an audio track, `process_video`
returns the pair of transcription text and a filename matching
`transcription_<YYYYMMDD>_<HHMMSS>.txt`, and afterwards the file with that
name in the transcripts directory holds exactly the returned text. -/
theorem process_video_returns_and_persists_transcript (env : Env)
    (fs : FileSystem) (content filename audio text : String)
    (h1 : env.probe content = .ok (some audio))
    (h2 : env.apiConvert audio = .ok text)
    (_h3 : env.now.Valid) :
    (process_video env fs content filename).1 =
      .ok (text, transcriptionFilename env.now) ∧
    matchesTranscriptionPattern (transcriptionFilename env.now) = true ∧
    (process_video env fs content filename).2.read
      (TRANSCRIPTIONS_DIR ++ "/" ++ transcriptionFilename env.now) =
      some text := by
  rw [process_video_eq_success env fs content filename audio text h1 h2]
  refine ⟨rfl, matches_transcriptionFilename env.now, ?_⟩
  rw [FileSystem.read_remove_ne _ (tempAudioPath_ne_transcript env _),
    FileSystem.read_remove_ne _ (tempVideoPath_ne_transcript env _),
    FileSystem.read_write_self]

def fs0 : FileSystem := ⟨[]⟩

def tsW : Timestamp := ⟨2025, 10, 12, 13, 14, 15⟩

def envOk : Env :=
  ⟨"stem", tsW, fun _ => .ok (some "AUDIO"), fun _ => .ok "HOLA"⟩

def envNoAudio : Env :=
  ⟨"stem", tsW, fun _ => .ok none, fun _ => .ok "HOLA"⟩

def envProbeFail : Env :=
  ⟨"stem", tsW, fun _ => .error "probe boom", fun _ => .ok "HOLA"⟩

def envApiFail : Env :=
  ⟨"stem", tsW, fun _ => .ok (some "AUDIO"), fun _ => .error "api boom"⟩

/-- Witness for C1 at a concrete environment and input. -/
theorem process_video_returns_and_persists_transcript_witness :
    (process_video envOk fs0 "VID" "clip.mp4").1 =
      .ok ("HOLA", transcriptionFilename envOk.now) ∧
    matchesTranscriptionPattern (transcriptionFilename envOk.now) = true ∧
    (process_video envOk fs0 "VID" "clip.mp4").2.read
      (TRANSCRIPTIONS_DIR ++ "/" ++ transcriptionFilename envOk.now) =
      some "HOLA" :=
  process_video_returns_and_persists_transcript envOk fs0 "VID" "clip.mp4"
    "AUDIO" "HOLA" rfl rfl (by decide)

/-- C2: on every exit path of `process_video`, the staged video file and
(when it was created) the extracted audio file are gone from the final
filesystem, and an exception raised by a step is re-raised unchanged:
a library failure or an API failure surfaces with its own message, and a
missing audio track surfaces as the `ValueError` the service raised. -/
theorem process_video_cleanup_and_reraise (env : Env) (fs : FileSystem)
    (content filename : String) :
    ((process_video env fs content filename).2.read (tempVideoPath env) =
      none) ∧
    (∀ audio, env.probe content = .ok (some audio) →
      (process_video env fs content filename).2.read
        (tempVideoPath env ++ ".mp3") = none) ∧
    (∀ msg, env.probe content = .error msg →
      (process_video env fs content filename).1 =
        .error (.otherError msg)) ∧
    (env.probe content = .ok none →
      (process_video env fs content filename).1 =
        .error (.valueError "No audio stream found in video")) ∧
    (∀ audio msg, env.probe content = .ok (some audio) →
      env.apiConvert audio = .error msg →
      (process_video env fs content filename).1 =
        .error (.otherError msg)) := by
  rcases hp : env.probe content with msg | oa
  · rw [process_video_eq_probe_error env fs content filename msg hp]
    refine ⟨FileSystem.read_remove_self _ _, ?_, ?_, ?_, ?_⟩
    · intro audio hcon
      exact absurd hcon (by simp)
    · intro m hm
      injection hm with h
      rw [← h]
    · intro hcon
      exact absurd hcon (by simp)
    · intro audio m hcon _
      exact absurd hcon (by simp)
  · rcases oa with _ | audio
    · rw [process_video_eq_no_audio env fs content filename hp]
      refine ⟨FileSystem.read_remove_self _ _, ?_, ?_, ?_, ?_⟩
      · intro audio hcon
        exact absurd hcon (by simp)
      · intro m hm
        exact absurd hm (by simp)
      · intro _
        rfl
      · intro audio m hcon _
        exact absurd hcon (by simp)
    · rcases ha : env.apiConvert audio with msg | text
      · rw [process_video_eq_api_error env fs content filename audio msg hp
          ha]
        refine ⟨?_, ?_, ?_, ?_, ?_⟩
        · rw [FileSystem.read_remove_ne _
            (Ne.symm (ne_append_mp3 (tempVideoPath env))),
            FileSystem.read_remove_self]
        · intro _ _
          exact FileSystem.read_remove_self _ _
        · intro m hm
          exact absurd hm (by simp)
        · intro hcon
          exact absurd hcon (by simp)
        · intro a2 m h2 h3
          injection h2 with h4
          injection h4 with h5
          rw [← h5] at h3
          rw [ha] at h3
          injection h3 with h6
          rw [← h6]
      · rw [process_video_eq_success env fs content filename audio text hp
          ha]
        refine ⟨?_, ?_, ?_, ?_, ?_⟩
        · rw [FileSystem.read_remove_ne _
            (Ne.symm (ne_append_mp3 (tempVideoPath env))),
            FileSystem.read_remove_self]
        · intro _ _
          exact FileSystem.read_remove_self _ _
        · intro m hm
          exact absurd hm (by simp)
        · intro hcon
          exact absurd hcon (by simp)
        · intro a2 m h2 h3
          injection h2 with h4
          injection h4 with h5
          rw [← h5] at h3
          rw [ha] at h3
          exact absurd h3 (by simp)

/-- Witness for C2 at a concrete failing environment. -/
theorem process_video_cleanup_and_reraise_witness :
    (process_video envProbeFail fs0 "VID" "clip.mp4").2.read
      (tempVideoPath envProbeFail) = none ∧
    (process_video envProbeFail fs0 "VID" "clip.mp4").1 =
      .error (.otherError "probe boom") :=
  ⟨(process_video_cleanup_and_reraise envProbeFail fs0 "VID" "clip.mp4").1,
   (process_video_cleanup_and_reraise envProbeFail fs0 "VID"
      "clip.mp4").2.2.1 "probe boom" rfl⟩

/-- C3: when `process_video` fails at any step, no file under the
transcripts directory is created, changed, or removed by that invocation:
reading any transcripts-directory path afterwards gives exactly what the
initial filesystem held. -/
theorem process_video_failure_leaves_transcripts_unchanged (env : Env)
    (fs : FileSystem) (content filename : String) (e : PyError)
    (rest : String)
    (herr : (process_video env fs content filename).1 = .error e) :
    (process_video env fs content filename).2.read
      (TRANSCRIPTIONS_DIR ++ "/" ++ rest) =
      fs.read (TRANSCRIPTIONS_DIR ++ "/" ++ rest) := by
  rcases hp : env.probe content with msg | oa
  · rw [process_video_eq_probe_error env fs content filename msg hp]
    rw [FileSystem.read_remove_ne _ (tempVideoPath_ne_transcript env rest),
      FileSystem.read_write_ne _ _ (tempVideoPath_ne_transcript env rest)]
  · rcases oa with _ | audio
    · rw [process_video_eq_no_audio env fs content filename hp]
      rw [FileSystem.read_remove_ne _ (tempVideoPath_ne_transcript env rest),
        FileSystem.read_write_ne _ _
          (tempVideoPath_ne_transcript env rest)]
    · rcases ha : env.apiConvert audio with msg | text
      · rw [process_video_eq_api_error env fs content filename audio msg hp
          ha]
        rw [FileSystem.read_remove_ne _
            (tempAudioPath_ne_transcript env rest),
          FileSystem.read_remove_ne _
            (tempVideoPath_ne_transcript env rest),
          FileSystem.read_write_ne _ _
            (tempAudioPath_ne_transcript env rest),
          FileSystem.read_write_ne _ _
            (tempVideoPath_ne_transcript env rest)]
      · rw [process_video_eq_success env fs content filename audio text hp
          ha] at herr
        exact absurd herr (by simp)

/-- Witness for C3 at a concrete failing environment. -/
theorem process_video_failure_leaves_transcripts_unchanged_witness :
    (process_video envNoAudio fs0 "VID" "clip.mp4").2.read
      (TRANSCRIPTIONS_DIR ++ "/" ++ "old.txt") =
      fs0.read (TRANSCRIPTIONS_DIR ++ "/" ++ "old.txt") :=
  process_video_failure_leaves_transcripts_unchanged envNoAudio fs0 "VID"
    "clip.mp4" (.valueError "No audio stream found in video") "old.txt"
    (by rw [process_video_eq_no_audio envNoAudio fs0 "VID" "clip.mp4" rfl])

theorem transcribe_trace_processed (env : Env) (fs : FileSystem)
    (ct : Option String) (content filename : String)
    (hct : contentTypeOk ct = true)
    (hsz : ¬ content.length > MAX_FILE_SIZE) :
    (transcribe_video env fs ct content filename).2.2 =
      [Effect.readUpload, Effect.pipelineInvoked] := by
  simp only [transcribe_video, hct, if_true, hsz, if_false]
  rcases hpv : process_video env fs content filename with ⟨res, fs2⟩
  rcases res with pe | ⟨text, fname⟩
  · rcases pe with msg | msg <;> rfl
  · rfl

/-- C4: with a valid content type and size, a video with no audio stream is
surfaced by the transcribe endpoint as HTTP 400 carrying the service's
human-readable ValueError message, while a media-library failure or a
remote-API failure (generic exceptions) is surfaced as HTTP 500 with the
underlying error string embedded in the body. -/
theorem transcribe_endpoint_error_statuses (env : Env) (fs : FileSystem)
    (ct : Option String) (content filename : String)
    (hct : contentTypeOk ct = true)
    (hsz : content.length ≤ MAX_FILE_SIZE) :
    (env.probe content = .ok none →
      (transcribe_video env fs ct content filename).1 =
        .httpError 400 "No audio stream found in video") ∧
    (∀ msg, env.probe content = .error msg →
      (transcribe_video env fs ct content filename).1 =
        .httpError 500 ("Error processing video: " ++ msg)) ∧
    (∀ audio msg, env.probe content = .ok (some audio) →
      env.apiConvert audio = .error msg →
      (transcribe_video env fs ct content filename).1 =
        .httpError 500 ("Error processing video: " ++ msg)) := by
  have hsz2 : ¬ content.length > MAX_FILE_SIZE := Nat.not_lt.mpr hsz
  refine ⟨?_, ?_, ?_⟩
  · intro hna
    simp [transcribe_video, hct, hsz2,
      process_video_eq_no_audio env fs content filename hna]
  · intro msg hpe
    simp [transcribe_video, hct, hsz2,
      process_video_eq_probe_error env fs content filename msg hpe]
  · intro audio msg h1 h2
    simp [transcribe_video, hct, hsz2,
      process_video_eq_api_error env fs content filename audio msg h1 h2]

/-- Witness for C4 at concrete environments. -/
theorem transcribe_endpoint_error_statuses_witness :
    (transcribe_video envNoAudio fs0 (some "video/mp4") "VID"
      "clip.mp4").1 = .httpError 400 "No audio stream found in video" ∧
    (transcribe_video envApiFail fs0 (some "video/mp4") "VID"
      "clip.mp4").1 =
      .httpError 500 ("Error processing video: " ++ "api boom") :=
  ⟨(transcribe_endpoint_error_statuses envNoAudio fs0 (some "video/mp4")
      "VID" "clip.mp4" (by decide) (by decide)).1 rfl,
   (transcribe_endpoint_error_statuses envApiFail fs0 (some "video/mp4")
      "VID" "clip.mp4" (by decide) (by decide)).2.2 "AUDIO" "api boom" rfl
      rfl⟩

/-- C6: an upload whose declared content type is absent or does not start
with `video/` is rejected with the content-type validation detail before
any file I/O: the upload stream is never read, nothing is staged (the
filesystem is returned untouched), and the pipeline is never invoked (the
effect trace is empty).  The raised 400 `HTTPException` is re-wrapped by
the endpoint's catch-all handler, so the surfaced status is 500 with the
validation message embedded. -/
theorem transcribe_rejects_nonvideo_before_io (env : Env) (fs : FileSystem)
    (ct : Option String) (content filename : String)
    (h : contentTypeOk ct = false) :
    transcribe_video env fs ct content filename =
      (.httpError 500
        ("Error processing video: " ++
          httpExceptionStr 400 (badTypeDetail ct)),
       fs, []) := by
  simp [transcribe_video, h]

/-- Witness for C6 at a concrete non-video upload. -/
theorem transcribe_rejects_nonvideo_before_io_witness :
    transcribe_video envOk fs0 (some "text/plain") "VID" "clip.mp4" =
      (.httpError 500
        ("Error processing video: " ++
          httpExceptionStr 400 (badTypeDetail (some "text/plain"))),
       fs0, []) :=
  transcribe_rejects_nonvideo_before_io envOk fs0 (some "text/plain") "VID"
    "clip.mp4" (by decide)

/-- An upload one byte over the 2 GiB ceiling. -/
def bigContent : String := String.mk (List.replicate (MAX_FILE_SIZE + 1) 'a')

/-- C7 (divergence): an oversize upload is rejected before staging and
before the pipeline runs, but the `HTTPException(400)` raised by the size
check is caught by the endpoint's own `except Exception` clause and
re-raised as HTTP 500, so the surfaced status is 500, not the 400 the
endpoint constructs. -/
theorem transcribe_oversize_surfaced_as_500 :
    transcribe_video envOk fs0 (some "video/mp4") bigContent "clip.mp4" =
      (.httpError 500
        ("Error processing video: " ++ httpExceptionStr 400 tooLargeDetail),
       fs0, [.readUpload]) := by
  have hct : contentTypeOk (some "video/mp4") = true := by decide
  have hlen : bigContent.length > MAX_FILE_SIZE := by
    have : bigContent.length = MAX_FILE_SIZE + 1 := by
      simp [bigContent, String.length]
    omega
  simp [transcribe_video, hct, hlen]

/-- C9: content-type validation is exactly the `video/` character-prefix
test: any subtype passes, `ALLOWED_VIDEO_TYPES` is not what decides, and in
particular `video/unknown-subtype` is accepted (the endpoint reads the
upload and invokes the pipeline) despite not being in that list. -/
theorem content_type_prefix_only :
    (∀ ct : String,
      contentTypeOk (some ct) = List.isPrefixOf "video/".data ct.data) ∧
    contentTypeOk none = false ∧
    contentTypeOk (some "video/unknown-subtype") = true ∧
    ALLOWED_VIDEO_TYPES.contains "video/unknown-subtype" = false ∧
    (∀ env fs filename,
      (transcribe_video env fs (some "video/unknown-subtype") "x"
        filename).2.2 = [Effect.readUpload, Effect.pipelineInvoked]) := by
  refine ⟨fun ct => rfl, rfl, by decide, by decide, ?_⟩
  intro env fs filename
  exact transcribe_trace_processed env fs (some "video/unknown-subtype")
    "x" filename (by decide) (by decide)

/-- C10: the size ceiling is exclusive at the boundary: a payload of
exactly `MAX_FILE_SIZE` bytes passes the size check and the pipeline is
invoked; only payloads strictly larger are rejected, without staging and
without invoking the pipeline. -/
theorem size_ceiling_boundary (env : Env) (fs : FileSystem)
    (ct : Option String) (content filename : String)
    (hct : contentTypeOk ct = true) :
    (content.length = MAX_FILE_SIZE →
      (transcribe_video env fs ct content filename).2.2 =
        [Effect.readUpload, Effect.pipelineInvoked]) ∧
    (content.length ≤ MAX_FILE_SIZE →
      (transcribe_video env fs ct content filename).2.2 =
        [Effect.readUpload, Effect.pipelineInvoked]) ∧
    (content.length > MAX_FILE_SIZE →
      transcribe_video env fs ct content filename =
        (.httpError 500
          ("Error processing video: " ++
            httpExceptionStr 400 tooLargeDetail),
         fs, [.readUpload])) := by
  refine ⟨?_, ?_, ?_⟩
  · intro hlen
    exact transcribe_trace_processed env fs ct content filename hct
      (by omega)
  · intro hlen
    exact transcribe_trace_processed env fs ct content filename hct
      (Nat.not_lt.mpr hlen)
  · intro hlen
    simp [transcribe_video, hct, hlen]

/-- Witness for C10: a one-byte upload passes the size check and the
pipeline runs. -/
theorem size_ceiling_boundary_witness :
    (transcribe_video envOk fs0 (some "video/mp4") "x" "clip.mp4").2.2 =
      [Effect.readUpload, Effect.pipelineInvoked] :=
  (size_ceiling_boundary envOk fs0 (some "video/mp4") "x" "clip.mp4"
    (by decide)).2.1 (by decide)

/-- C5: for any nonempty path-parameter filename, the download endpoint
answers 400 exactly when the name contains `..` or the path separator `/`
(and then returns the filesystem untouched with an empty effect trace);
otherwise it answers 404 exactly when the transcript store reports the
file absent, and otherwise 200 serving the stored bytes under the
requested filename.  The filesystem is never modified. -/
theorem download_endpoint_statuses (fs : FileSystem) (filename : String)
    (hne : filename ≠ "") :
    (hasDotDotSub filename.data = true ∨
        filename.data.contains '/' = true →
      download_transcription fs filename =
        (.httpError 400 "Invalid filename", fs, [])) ∧
    (hasDotDotSub filename.data = false →
      filename.data.contains '/' = false →
      ((transcription_file_exists fs filename = false →
        (download_transcription fs filename).1 =
          .httpError 404 "Transcription file not found") ∧
      (∀ contents,
        fs.read (get_transcription_file_path filename) = some contents →
        (download_transcription fs filename).1 =
          .fileResponse (get_transcription_file_path filename) contents
            filename))) ∧
    (download_transcription fs filename).2.1 = fs := by
  have h0 : (filename == "") = false := beq_eq_false_iff_ne.mpr hne
  refine ⟨?_, ?_, ?_⟩
  · intro hbad
    have hinv : invalidDownloadName filename = true := by
      unfold invalidDownloadName
      rcases hbad with h | h <;> rw [h] <;> simp
    simp [download_transcription, hinv]
  · intro hdd hsl
    have hinv : invalidDownloadName filename = false := by
      unfold invalidDownloadName
      rw [h0, hdd, hsl]
      rfl
    constructor
    · intro hex
      simp [download_transcription, hinv, hex]
    · intro contents hc
      have hex : transcription_file_exists fs filename = true := by
        simp [transcription_file_exists, FileSystem.pathExists, hc]
      simp [download_transcription, hinv, hex, hc]
  · by_cases h1 : invalidDownloadName filename = true
    · simp [download_transcription, h1]
    · by_cases h2 : transcription_file_exists fs filename = true
      · simp [download_transcription, h1, h2]
      · simp [download_transcription, h1, h2]

def fsA : FileSystem := ⟨[("transcriptions/a.txt", "HOLA")]⟩

/-- Witness for C5: an existing transcript is served with its bytes. -/
theorem download_endpoint_statuses_witness :
    (download_transcription fsA "a.txt").1 =
      .fileResponse (get_transcription_file_path "a.txt") "HOLA"
        "a.txt" :=
  ((download_endpoint_statuses fsA "a.txt" (by decide)).2.1 (by decide)
    (by decide)).2 "HOLA" (by decide)

/-- C8: download mutates nothing, so with no update or delete operation in
the system, repeating the same download request yields the identical
response (identical file bytes in particular). -/
theorem download_idempotent (fs : FileSystem) (filename : String) :
    (download_transcription fs filename).2.1 = fs ∧
    download_transcription ((download_transcription fs filename).2.1)
      filename = download_transcription fs filename := by
  have hfs : (download_transcription fs filename).2.1 = fs := by
    unfold download_transcription
    by_cases h1 : invalidDownloadName filename = true
    · simp [h1]
    · by_cases h2 : transcription_file_exists fs filename = true
      · simp [h1, h2]
      · simp [h1, h2]
  exact ⟨hfs, by rw [hfs]⟩
